import Mathlib

/-!
Verification of the ESPHome climate adapter
(`homeassistant/components/esphome/climate.py`).

The module translates between the device client's climate structs and the
host framework's climate-entity property surface, and dispatches commands
back to the client.  We embed the module shallowly: Python floats that may
be NaN become the type `Fl`, the device structs become Lean structures,
each property getter becomes a pure function of an `Entity`, each command
method becomes a pure function returning the list of client calls it makes
together with the (unchanged) entity, with `none` standing for a raised
exception.
-/

namespace Esphome

/-- Modelled from the spec: the host framework constant `STATE_OFF` from
`homeassistant.const` (the framework module is not among the provided
sources). -/
def STATE_OFF : String := "off"

/-- Modelled from the spec: the host framework constant `STATE_AUTO` from
`homeassistant.components.climate.const`. -/
def STATE_AUTO : String := "auto"

/-- Modelled from the spec: the host framework constant `STATE_COOL` from
`homeassistant.components.climate.const`. -/
def STATE_COOL : String := "cool"

/-- Modelled from the spec: the host framework constant `STATE_HEAT` from
`homeassistant.components.climate.const`. -/
def STATE_HEAT : String := "heat"

/-- Modelled from the spec: the host framework constant `TEMP_CELSIUS` from
`homeassistant.const`. -/
def TEMP_CELSIUS : String := "°C"

/-- Modelled from the spec: the host framework constant `PRECISION_WHOLE`
(the value 1) from `homeassistant.const`. -/
def PRECISION_WHOLE : ℚ := 1

/-- Modelled from the spec: the host framework constant `PRECISION_HALVES`
(the value 0.5) from `homeassistant.const`. -/
def PRECISION_HALVES : ℚ := 1 / 2

/-- Modelled from the spec: the host framework constant `PRECISION_TENTHS`
(the value 0.1) from `homeassistant.const`. -/
def PRECISION_TENTHS : ℚ := 1 / 10

/-- Modelled from the spec: the supported-feature bit
`SUPPORT_TARGET_TEMPERATURE` from `homeassistant.components.climate.const`. -/
def SUPPORT_TARGET_TEMPERATURE : Nat := 1

/-- Modelled from the spec: the supported-feature bit
`SUPPORT_TARGET_TEMPERATURE_HIGH` from
`homeassistant.components.climate.const`. -/
def SUPPORT_TARGET_TEMPERATURE_HIGH : Nat := 2

/-- Modelled from the spec: the supported-feature bit
`SUPPORT_TARGET_TEMPERATURE_LOW` from
`homeassistant.components.climate.const`. -/
def SUPPORT_TARGET_TEMPERATURE_LOW : Nat := 4

/-- Modelled from the spec: the supported-feature bit
`SUPPORT_OPERATION_MODE` from `homeassistant.components.climate.const`. -/
def SUPPORT_OPERATION_MODE : Nat := 128

/-- Modelled from the spec: the supported-feature bit `SUPPORT_AWAY_MODE`
from `homeassistant.components.climate.const`. -/
def SUPPORT_AWAY_MODE : Nat := 1024

/-- Modelled from the spec: the device client's `ClimateMode` enum
(`aioesphomeapi`), whose members are OFF, AUTO, COOL and HEAT. -/
inductive ClimateMode where
  | OFF : ClimateMode
  | AUTO : ClimateMode
  | COOL : ClimateMode
  | HEAT : ClimateMode
  deriving DecidableEq

/-- A Python float as the adapter observes it: either NaN or a numeric
value (modelled as a rational).  The adapter only passes floats through and
tests them with `math.isnan`, so this is the faithful shallow embedding. -/
inductive Fl where
  | nan : Fl
  | val : ℚ → Fl
  deriving DecidableEq

/-- The embedding of `math.isnan`. -/
def Fl.isnan : Fl → Bool
  | Fl.nan => true
  | Fl.val _ => false

/-- Modelled from the spec: the device capability descriptor (`ClimateInfo`
of `aioesphomeapi`) — supported modes, temperature bounds and step, feature
flags, and the entity key used in commands. -/
structure ClimateInfo where
  key : Nat
  supported_modes : List ClimateMode
  supports_two_point_target_temperature : Bool
  supports_away : Bool
  visual_min_temperature : ℚ
  visual_max_temperature : ℚ
  visual_temperature_step : ℚ
  deriving DecidableEq

/-- Modelled from the spec: the mutable runtime snapshot (`ClimateState` of
`aioesphomeapi`) — mode, current and target temperatures, away flag. -/
structure ClimateState where
  mode : ClimateMode
  current_temperature : Fl
  target_temperature : Fl
  target_temperature_low : Fl
  target_temperature_high : Fl
  away : Bool
  deriving DecidableEq

/-- An `EsphomeClimateDevice` as the getters and command methods see it:
its static info and its optional state (`self._state` is None until a state
arrives). -/
structure Entity where
  static_info : ClimateInfo
  state : Option ClimateState
  deriving DecidableEq

/-- One `client.climate_command` call: the keyword arguments passed, with
`none` for an omitted keyword. -/
structure ClimateCommand where
  key : Nat
  mode : Option ClimateMode
  target_temperature : Option Fl
  target_temperature_low : Option Fl
  target_temperature_high : Option Fl
  away : Option Bool
  deriving DecidableEq

/-- The keyword arguments of `async_set_temperature`: each of the four
recognised keys is present or absent. -/
structure SetTempKwargs where
  operation_mode : Option String
  temperature : Option Fl
  target_temp_low : Option Fl
  target_temp_high : Option Fl
  deriving DecidableEq

/-- The dict lookup of `_ha_climate_mode_to_esphome`; the missing-key case
(Python KeyError) is `none`. -/
def ha_climate_mode_to_esphome (mode : String) : Option ClimateMode :=
  if mode = STATE_OFF then some ClimateMode.OFF
  else if mode = STATE_AUTO then some ClimateMode.AUTO
  else if mode = STATE_COOL then some ClimateMode.COOL
  else if mode = STATE_HEAT then some ClimateMode.HEAT
  else none

/-- The dict lookup of `_esphome_climate_mode_to_ha`; total because the
enum has exactly the four listed members. -/
def esphome_climate_mode_to_ha : ClimateMode → String
  | ClimateMode.OFF => STATE_OFF
  | ClimateMode.AUTO => STATE_AUTO
  | ClimateMode.COOL => STATE_COOL
  | ClimateMode.HEAT => STATE_HEAT

/-- The `precision` property: the loop over
`[PRECISION_WHOLE, PRECISION_HALVES, PRECISION_TENTHS]`, unrolled, with the
fall-through returning `PRECISION_TENTHS`. -/
def precision (e : Entity) : ℚ :=
  if e.static_info.visual_temperature_step ≥ PRECISION_WHOLE then PRECISION_WHOLE
  else if e.static_info.visual_temperature_step ≥ PRECISION_HALVES then PRECISION_HALVES
  else if e.static_info.visual_temperature_step ≥ PRECISION_TENTHS then PRECISION_TENTHS
  else PRECISION_TENTHS

/-- The `temperature_unit` property. -/
def temperature_unit (_e : Entity) : String := TEMP_CELSIUS

/-- The `operation_list` property: the list comprehension mapping
`_esphome_climate_mode_to_ha` over the supported modes. -/
def operation_list (e : Entity) : List String :=
  e.static_info.supported_modes.map esphome_climate_mode_to_ha

/-- Rounding half to even at the integers, the tie-breaking rule of the
builtin `round` of Python 3. -/
def roundHalfEven (x : ℚ) : ℤ :=
  if x - ⌊x⌋ < 1 / 2 then ⌊x⌋
  else if x - ⌊x⌋ > 1 / 2 then ⌊x⌋ + 1
  else if ⌊x⌋ % 2 = 0 then ⌊x⌋ else ⌊x⌋ + 1

/-- The embedding of the Python call `round(x, 1)`: round to one decimal
digit, ties to even. -/
def pyRound1 (x : ℚ) : ℚ := (roundHalfEven (x * 10) : ℚ) / 10

/-- The `target_temperature_step` property: the visual step rounded to one
digit. -/
def target_temperature_step (e : Entity) : ℚ :=
  pyRound1 e.static_info.visual_temperature_step

/-- The `min_temp` property. -/
def min_temp (e : Entity) : ℚ := e.static_info.visual_min_temperature

/-- The `max_temp` property. -/
def max_temp (e : Entity) : ℚ := e.static_info.visual_max_temperature

/-- The `supported_features` property: the bitmask built from
`SUPPORT_OPERATION_MODE` and the two capability flags. -/
def supported_features (e : Entity) : Nat :=
  let features := SUPPORT_OPERATION_MODE
  let features :=
    if e.static_info.supports_two_point_target_temperature then
      features ||| (SUPPORT_TARGET_TEMPERATURE_LOW ||| SUPPORT_TARGET_TEMPERATURE_HIGH)
    else
      features ||| SUPPORT_TARGET_TEMPERATURE
  let features :=
    if e.static_info.supports_away then features ||| SUPPORT_AWAY_MODE
    else features
  features

/-- The `current_operation` property. -/
def current_operation (e : Entity) : Option String :=
  match e.state with
  | none => none
  | some s => some (esphome_climate_mode_to_ha s.mode)

/-- The `current_temperature` property. -/
def current_temperature (e : Entity) : Option Fl :=
  match e.state with
  | none => none
  | some s =>
    if s.current_temperature.isnan then none
    else some s.current_temperature

/-- The `target_temperature` property. -/
def target_temperature (e : Entity) : Option Fl :=
  match e.state with
  | none => none
  | some s =>
    if s.target_temperature.isnan then none
    else some s.target_temperature

/-- The `target_temperature_low` property. -/
def target_temperature_low (e : Entity) : Option Fl :=
  match e.state with
  | none => none
  | some s =>
    if s.target_temperature_low.isnan then none
    else some s.target_temperature_low

/-- The `target_temperature_high` property. -/
def target_temperature_high (e : Entity) : Option Fl :=
  match e.state with
  | none => none
  | some s =>
    if s.target_temperature_high.isnan then none
    else some s.target_temperature_high

/-- The `is_away_mode_on` property. -/
def is_away_mode_on (e : Entity) : Option Bool :=
  match e.state with
  | none => none
  | some s => some s.away

/-- The `async_set_temperature` method: builds the keyword dict from the
present kwargs (raising, hence `none`, if the mode string is untranslatable)
and performs one `client.climate_command` call; the entity itself is
returned unchanged since the method assigns nothing. -/
def async_set_temperature (e : Entity) (kw : SetTempKwargs) :
    Option (List ClimateCommand × Entity) :=
  match kw.operation_mode with
  | none =>
    some ([⟨e.static_info.key, none, kw.temperature,
            kw.target_temp_low, kw.target_temp_high, none⟩], e)
  | some s =>
    match ha_climate_mode_to_esphome s with
    | none => none
    | some m =>
      some ([⟨e.static_info.key, some m, kw.temperature,
              kw.target_temp_low, kw.target_temp_high, none⟩], e)

/-- The `async_set_operation_mode` method: one call with the key and the
translated mode, `none` when the translation raises. -/
def async_set_operation_mode (e : Entity) (operation_mode : String) :
    Option (List ClimateCommand × Entity) :=
  match ha_climate_mode_to_esphome operation_mode with
  | none => none
  | some m => some ([⟨e.static_info.key, some m, none, none, none, none⟩], e)

/-- The `async_turn_away_mode_on` method: one call with the key and
`away=True`. -/
def async_turn_away_mode_on (e : Entity) :
    Option (List ClimateCommand × Entity) :=
  some ([⟨e.static_info.key, none, none, none, none, some true⟩], e)

/-- The `async_turn_away_mode_off` method: one call with the key and
`away=False`. -/
def async_turn_away_mode_off (e : Entity) :
    Option (List ClimateCommand × Entity) :=
  some ([⟨e.static_info.key, none, none, none, none, some false⟩], e)

/-- A concrete capability descriptor used for concrete evaluations. -/
def sampleInfo : ClimateInfo :=
  ⟨7, [ClimateMode.OFF, ClimateMode.HEAT], false, true, 10, 30, 1 / 2⟩

/-- A concrete state whose current temperature is NaN. -/
def nanState : ClimateState :=
  ⟨ClimateMode.HEAT, Fl.nan, Fl.val 21, Fl.val 19, Fl.val 23, false⟩

/-- A concrete entity with a present state holding a NaN current
temperature. -/
def nanEntity : Entity := ⟨sampleInfo, some nanState⟩

/-- Claim C1: the climate-mode translation is a one-to-one enum mapping:
translating any of the four modes to the host string and back yields the
same mode, and translating any of the four host strings to a device mode
and back yields the same string, so the two functions are mutually inverse
bijections on these four modes. -/
theorem claim_C1 : ∀ m : ClimateMode,
    ha_climate_mode_to_esphome (esphome_climate_mode_to_ha m) = some m ∧
    (ha_climate_mode_to_esphome STATE_OFF).map esphome_climate_mode_to_ha = some STATE_OFF ∧
    (ha_climate_mode_to_esphome STATE_AUTO).map esphome_climate_mode_to_ha = some STATE_AUTO ∧
    (ha_climate_mode_to_esphome STATE_COOL).map esphome_climate_mode_to_ha = some STATE_COOL ∧
    (ha_climate_mode_to_esphome STATE_HEAT).map esphome_climate_mode_to_ha = some STATE_HEAT := by
  intro m
  cases m <;> exact ⟨by decide, by decide, by decide, by decide, by decide⟩

/-- Claim C2: the supported-features bitmask always contains
SUPPORT_OPERATION_MODE; it contains the LOW and HIGH target-temperature
bits (and not the single TARGET bit) exactly when two-point target
temperature is supported, the single TARGET bit (and neither LOW nor HIGH)
otherwise; it contains SUPPORT_AWAY_MODE exactly when away is supported;
and no other bit is ever set. -/
theorem claim_C2 : ∀ e : Entity,
    supported_features e &&& SUPPORT_OPERATION_MODE = SUPPORT_OPERATION_MODE ∧
    supported_features e &&& SUPPORT_TARGET_TEMPERATURE_LOW =
      (if e.static_info.supports_two_point_target_temperature then
        SUPPORT_TARGET_TEMPERATURE_LOW else 0) ∧
    supported_features e &&& SUPPORT_TARGET_TEMPERATURE_HIGH =
      (if e.static_info.supports_two_point_target_temperature then
        SUPPORT_TARGET_TEMPERATURE_HIGH else 0) ∧
    supported_features e &&& SUPPORT_TARGET_TEMPERATURE =
      (if e.static_info.supports_two_point_target_temperature then 0
        else SUPPORT_TARGET_TEMPERATURE) ∧
    supported_features e &&& SUPPORT_AWAY_MODE =
      (if e.static_info.supports_away then SUPPORT_AWAY_MODE else 0) ∧
    supported_features e &&& (SUPPORT_OPERATION_MODE ||| SUPPORT_TARGET_TEMPERATURE |||
        SUPPORT_TARGET_TEMPERATURE_LOW ||| SUPPORT_TARGET_TEMPERATURE_HIGH |||
        SUPPORT_AWAY_MODE) =
      supported_features e := by
  rintro ⟨⟨k, sm, tp, sa, a, b, c⟩, st⟩
  cases tp <;> cases sa <;>
    simp [supported_features, SUPPORT_OPERATION_MODE, SUPPORT_TARGET_TEMPERATURE,
      SUPPORT_TARGET_TEMPERATURE_LOW, SUPPORT_TARGET_TEMPERATURE_HIGH,
      SUPPORT_AWAY_MODE] <;>
    decide

/-- Claim C3 counterexample: an entity whose state is present but whose
current temperature field is NaN makes `current_temperature` return `none`
rather than the state field, so the getters do more than a null-check. -/
theorem claim_C3_counterexample :
    nanEntity.state = some nanState ∧
    current_temperature nanEntity ≠ some nanState.current_temperature :=
  ⟨rfl, by decide⟩

/-- Claim C3 (amended): every state-derived getter returns `none` when the
state is `none`; when the state is present, `current_operation` returns the
translated mode and `is_away_mode_on` the away flag, while each temperature
getter returns the state field unless that field is NaN, in which case it
returns `none` (a NaN check in addition to the null-check). -/
theorem claim_C3 : ∀ e : Entity,
    current_operation e = Option.map (fun s => esphome_climate_mode_to_ha s.mode) e.state ∧
    is_away_mode_on e = Option.map (fun s => s.away) e.state ∧
    current_temperature e = Option.bind e.state
      (fun s => if s.current_temperature.isnan then none else some s.current_temperature) ∧
    target_temperature e = Option.bind e.state
      (fun s => if s.target_temperature.isnan then none else some s.target_temperature) ∧
    target_temperature_low e = Option.bind e.state
      (fun s => if s.target_temperature_low.isnan then none else some s.target_temperature_low) ∧
    target_temperature_high e = Option.bind e.state
      (fun s => if s.target_temperature_high.isnan then none else some s.target_temperature_high) := by
  rintro ⟨i, _ | s⟩ <;> exact ⟨rfl, rfl, rfl, rfl, rfl, rfl⟩

/-- Claim C4: each command method performs exactly one
`client.climate_command` call whose arguments are the static-info key plus
only the fields determined by the method's own arguments, the mode argument
translated by the host-to-device mapping and absent kwargs omitted, and the
entity (static info and state) is returned unchanged. -/
theorem claim_C4 : ∀ (e : Entity) (kw : SetTempKwargs) (os : String),
    async_turn_away_mode_on e =
      some ([⟨e.static_info.key, none, none, none, none, some true⟩], e) ∧
    async_turn_away_mode_off e =
      some ([⟨e.static_info.key, none, none, none, none, some false⟩], e) ∧
    async_set_operation_mode e os =
      Option.map (fun m => ([⟨e.static_info.key, some m, none, none, none, none⟩], e))
        (ha_climate_mode_to_esphome os) ∧
    async_set_temperature e kw =
      Option.map (fun mo => ([⟨e.static_info.key, mo, kw.temperature,
          kw.target_temp_low, kw.target_temp_high, none⟩], e))
        (match kw.operation_mode with
          | none => some none
          | some s => Option.map some (ha_climate_mode_to_esphome s)) := by
  intro e kw os
  refine ⟨rfl, rfl, ?_, ?_⟩
  · cases h : ha_climate_mode_to_esphome os <;>
      simp [async_set_operation_mode, h]
  · rcases kw with ⟨omode, t, lo, hi⟩
    cases omode with
    | none => rfl
    | some s =>
      cases h : ha_climate_mode_to_esphome s <;>
        simp [async_set_temperature, h]

/-- Claim C5: `temperature_unit` returns TEMP_CELSIUS for every entity,
regardless of its static info or state: the unit is a constant, not a field
translated from the device. -/
theorem claim_C5 : ∀ e e2 : Entity,
    temperature_unit e = TEMP_CELSIUS ∧
    temperature_unit e = temperature_unit e2 := by
  intro e e2
  exact ⟨rfl, rfl⟩

/-- Claim C6: `operation_list` is the element-wise translation of the
capability descriptor's supported modes, preserving order and length. -/
theorem claim_C6 : ∀ e : Entity,
    operation_list e = e.static_info.supported_modes.map esphome_climate_mode_to_ha ∧
    (operation_list e).length = e.static_info.supported_modes.length ∧
    ∀ i : Nat, (operation_list e)[i]? =
      (e.static_info.supported_modes[i]?).map esphome_climate_mode_to_ha := by
  intro e
  refine ⟨rfl, ?_, ?_⟩
  · simp [operation_list]
  · intro i
    simp [operation_list]

/-- Claim C7: the temperature bounds and step come solely from the static
capability descriptor — `min_temp` and `max_temp` are the visual bounds and
`target_temperature_step` is the visual step rounded to one decimal digit —
and replacing the mutable state changes none of them. -/
theorem claim_C7 : ∀ (e : Entity) (st : Option ClimateState),
    min_temp e = e.static_info.visual_min_temperature ∧
    max_temp e = e.static_info.visual_max_temperature ∧
    target_temperature_step e = pyRound1 e.static_info.visual_temperature_step ∧
    min_temp ⟨e.static_info, st⟩ = min_temp e ∧
    max_temp ⟨e.static_info, st⟩ = max_temp e ∧
    target_temperature_step ⟨e.static_info, st⟩ = target_temperature_step e := by
  intro e st
  exact ⟨rfl, rfl, rfl, rfl, rfl, rfl⟩

/-- Claim C8: with a present state, each temperature getter returns `none`
when its state field is NaN and the field's value otherwise, and no getter
ever returns a NaN value to the host framework. -/
theorem claim_C8 : ∀ e : Entity,
    current_temperature e = Option.bind e.state
      (fun s => if s.current_temperature.isnan then none else some s.current_temperature) ∧
    target_temperature e = Option.bind e.state
      (fun s => if s.target_temperature.isnan then none else some s.target_temperature) ∧
    target_temperature_low e = Option.bind e.state
      (fun s => if s.target_temperature_low.isnan then none else some s.target_temperature_low) ∧
    target_temperature_high e = Option.bind e.state
      (fun s => if s.target_temperature_high.isnan then none else some s.target_temperature_high) ∧
    Option.all (fun v => !v.isnan) (current_temperature e) = true ∧
    Option.all (fun v => !v.isnan) (target_temperature e) = true ∧
    Option.all (fun v => !v.isnan) (target_temperature_low e) = true ∧
    Option.all (fun v => !v.isnan) (target_temperature_high e) = true := by
  rintro ⟨i, _ | ⟨m, ct, tt, tl, th, aw⟩⟩
  · exact ⟨rfl, rfl, rfl, rfl, rfl, rfl, rfl, rfl⟩
  · cases ct <;> cases tt <;> cases tl <;> cases th <;>
      exact ⟨rfl, rfl, rfl, rfl, rfl, rfl, rfl, rfl⟩

/-- Claim C9: `precision` returns the coarsest of 1, 1/2, 1/10 (in that
order) that is at most the visual temperature step, and 1/10 when the step
is below all three. -/
theorem claim_C9 : ∀ e : Entity,
    precision e =
      (if e.static_info.visual_temperature_step ≥ (1 : ℚ) then (1 : ℚ)
        else if e.static_info.visual_temperature_step ≥ (1 : ℚ) / 2 then (1 : ℚ) / 2
        else (1 : ℚ) / 10) := by
  intro e
  simp only [precision, PRECISION_WHOLE, PRECISION_HALVES, PRECISION_TENTHS]
  split_ifs <;> rfl

/-- Claim C10: the host-to-device mode translation is defined on exactly
the four strings STATE_OFF, STATE_AUTO, STATE_COOL, STATE_HEAT and fails
(raises, embedded as `none`) on every other string; when it fails,
`async_set_operation_mode` and `async_set_temperature` with an
operation-mode kwarg fail without issuing any client call. -/
theorem claim_C10 : ∀ (e : Entity) (s : String) (kw : SetTempKwargs),
    (ha_climate_mode_to_esphome s = none ↔
      s ≠ STATE_OFF ∧ s ≠ STATE_AUTO ∧ s ≠ STATE_COOL ∧ s ≠ STATE_HEAT) ∧
    (ha_climate_mode_to_esphome s = none → async_set_operation_mode e s = none) ∧
    (kw.operation_mode = some s → ha_climate_mode_to_esphome s = none →
      async_set_temperature e kw = none) := by
  intro e s kw
  refine ⟨?_, ?_, ?_⟩
  · unfold ha_climate_mode_to_esphome
    split_ifs with h1 h2 h3 h4 <;> simp_all
  · intro h
    unfold async_set_operation_mode
    rw [h]
  · intro hk h
    rcases kw with ⟨omode, t, lo, hi⟩
    simp only at hk
    subst hk
    simp [async_set_temperature, h]

end Esphome
